import Mathlib

/-
Verification of the string-property computation and filter/query engine of
the hng-task-1 repository (stage 1).

The embedding models Python strings as `List Char`.  The components embedded
here are, in source order:

 * `String._calculate_properties`  (src/src/stage1/models.py) — the property
   deriver (length, palindrome flag, unique character count, word count,
   character frequency map).  The `id`, `created_at` and `sha256_hash`
   fields are fresh-per-call identifiers / digests that no claim touches;
   they are omitted from the record.
 * `Database.add_string / get_string / query_string`  (src/src/stage1/db.py)
   — the record store, modelled over an explicit list of records in
   insertion order (the SQL layer returns rows in stable storage order).
 * the `query_strings` endpoint key check  (src/src/stage1/main.py).
 * `NaturalLangFilter.extract_context`  (src/main.py) — the rule-based
   spaCy pattern translator.
 * `NaturalLangFilter.parse_gemini_json / extract_context`
   (src/src/stage1/utils.py) — the model-based translator adapter.
-/

namespace Hng

/-- Python strings modelled as lists of characters. -/
abbrev PyStr := List Char

/-- The whitespace characters recognised by Python's `str.split()` /
`str.strip()` (ASCII subset; the repository only ever handles ASCII input). -/
def isPyWS (c : Char) : Bool :=
  c == ' ' || c == '\t' || c == '\n' || c == '\x0d' || c == '\x0b' || c == '\x0c'

/-- Accumulator worker for `pySplitWS`: `acc` holds the (reversed) characters
of the token currently being read. -/
def splitWSGo : List Char → List Char → List PyStr
  | [], acc => if acc.isEmpty then [] else [acc.reverse]
  | c :: cs, acc =>
    if isPyWS c then
      if acc.isEmpty then splitWSGo cs [] else acc.reverse :: splitWSGo cs []
    else splitWSGo cs (c :: acc)

/-- Python's `str.split()` with no argument: splits on runs of whitespace and
produces no empty tokens. -/
def pySplitWS (s : PyStr) : List PyStr := splitWSGo s []

/-- Specification-side token counter: counts the maximal runs of
non-whitespace characters ("whitespace-delimited tokens").  The boolean state
records whether the scanner is currently inside a token. -/
def countStarts : Bool → List Char → Nat
  | _, [] => 0
  | insideTok, c :: cs =>
    if isPyWS c then countStarts false cs
    else (if insideTok then 0 else 1) + countStarts true cs

/-- The number of whitespace-delimited tokens of `s`, defined independently of
`pySplitWS` as the number of maximal non-whitespace runs. -/
def tokenStarts (s : PyStr) : Nat := countStarts false s

/-- First-occurrence de-duplication, mirroring the key set (and key order) of
Python's `collections.Counter` / `dict`. -/
def dedupFirstAux : List Char → List Char → List Char
  | [], _ => []
  | c :: cs, seen =>
    if c ∈ seen then dedupFirstAux cs seen
    else c :: dedupFirstAux cs (seen ++ [c])

/-- The distinct characters of `s` in first-occurrence order. -/
def dedupFirst (s : PyStr) : List Char := dedupFirstAux s []

/-- `dict(Counter(name))`: each distinct character of `s` paired with its
occurrence count, keys in first-occurrence order. -/
def counterList (s : PyStr) : List (Char × Nat) :=
  (dedupFirst s).map (fun c => (c, s.count c))

/-- Reading a count out of a frequency map; a missing key reads as `0`
(in the SQL predicate a missing JSON key compares as null / no match). -/
def lookupCount (m : List (Char × Nat)) (c : Char) : Nat :=
  match m.find? (fun p => p.1 == c) with
  | some p => p.2
  | none => 0

/-- Whether `c` is one of the keys of the frequency map `m`. -/
def hasKey (m : List (Char × Nat)) (c : Char) : Bool :=
  m.any (fun p => p.1 == c)

/-- The derived-property record persisted by the `strings` table
(src/src/stage1/models.py, class `String`).  `id`, `created_at` and
`sha256_hash` are fresh-per-call and not derived properties any claim
mentions, so they are not modelled. -/
structure StringRecord where
  name : PyStr
  length : Nat
  is_palindrome : Bool
  unique_characters : Nat
  word_count : Nat
  character_frequency_map : List (Char × Nat)
deriving DecidableEq, Repr

/-- `String._calculate_properties` (src/src/stage1/models.py lines 42-59):
  reversed_name = self.name[::-1]
  char_count = Counter(self.name)
  self.length = len(self.name)
  self.is_palindrome = self.name == reversed_name
  self.unique_characters = len(char_count)
  self.word_count = len(self.name.split())
  self.character_frequency_map = dict(char_count) -/
def calculate_properties (name : PyStr) : StringRecord :=
  { name := name
    length := name.length
    is_palindrome := name == name.reverse
    unique_characters := (counterList name).length
    word_count := (pySplitWS name).length
    character_frequency_map := counterList name }

/-- The record store: the rows of the `strings` table in insertion order. -/
abbrev Store := List StringRecord

/-- `Database.get_string` (src/src/stage1/db.py lines 37-53):
`select(String).where(String.name == value) |>.first()`. -/
def get_string (store : Store) (value : PyStr) : Option StringRecord :=
  store.find? (fun r => r.name == value)

/-- `Database.add_string` (src/src/stage1/db.py lines 16-35): if no record
with this exact value exists, derive, persist and return the new record;
otherwise return `none` (the endpoint maps `none` to HTTP 409 conflict). -/
def add_string (store : Store) (value : PyStr) : Option StringRecord × Store :=
  match get_string store value with
  | none =>
    let r := calculate_properties value
    (some r, store ++ [r])
  | some _ => (none, store)

/-- `Database.delete_string` (src/src/stage1/db.py lines 55-76). -/
def delete_string (store : Store) (value : PyStr) : Bool × Store :=
  match get_string store value with
  | some r => (true, store.erase r)
  | none => (false, store)

/-- A Python value as it can appear in a filter dictionary
(`Dict[str, str | int | bool]`, plus `None` which the rule-based translator
can produce for `max_length` / `min_length`). -/
inductive FValue where
  | vnone
  | vb (b : Bool)
  | vi (n : Int)
  | vs (s : PyStr)
deriving DecidableEq, Repr

/-- Python truthiness, as used by the `if val := query.get(key)` guards. -/
def truthy : FValue → Bool
  | .vnone => false
  | .vb b => b
  | .vi n => n != 0
  | .vs s => !s.isEmpty

/-- Python `str(val)` on the values a filter dictionary can hold. -/
def pyStrOf : FValue → PyStr
  | .vnone => "None".toList
  | .vb true => "True".toList
  | .vb false => "False".toList
  | .vi n => (toString n).toList
  | .vs s => s

/-- Python `str.lower()` (ASCII). -/
def pyLower (s : PyStr) : PyStr := s.map Char.toLower

/-- Base-10 digit run to a number; `none` if empty or any non-digit. -/
def parseDigits (s : PyStr) : Option Nat :=
  if s.isEmpty then none
  else
    s.foldl
      (fun acc c =>
        match acc with
        | some a => if c.isDigit then some (a * 10 + (c.toNat - '0'.toNat)) else none
        | none => none)
      (some 0)

/-- Python `int()` applied to a string: an optional sign followed by base-10
digits (the surrounding-whitespace and underscore allowances of `int()` are
not exercised by the repository and are not modelled). -/
def parseInt : PyStr → Option Int
  | '-' :: rest => (parseDigits rest).map (fun n => -(n : Int))
  | '+' :: rest => (parseDigits rest).map (fun n => (n : Int))
  | s => (parseDigits s).map (fun n => (n : Int))

/-- Python `int(val)` on filter values: booleans coerce (`int(True) == 1`),
ints pass through, strings parse in base 10.  `int(None)` raises a
`TypeError`, which the `except ValueError` in the source would not catch;
that case is unreachable behind the truthiness guard and is modelled as a
plain failure. -/
def pyInt : FValue → Option Int
  | .vb b => some (if b then 1 else 0)
  | .vi n => some n
  | .vs s => parseInt s
  | .vnone => none

/-- The filter dictionary handed to `Database.query_string`, keyed by the five
recognised filter names (`query.get(key)` returns `none` for an absent key). -/
structure QueryMap where
  is_palindrome : Option FValue := none
  max_length : Option FValue := none
  min_length : Option FValue := none
  word_count : Option FValue := none
  contains_character : Option FValue := none
deriving DecidableEq, Repr

/-- The `ValueError`s raised by `Database.query_string`.  `invalidValue k v`
stands for the interpolated message "Invalid value for k: v. Must be ...",
which names the key and the offending literal; `containsRequiresSingleChar`
stands for the fixed message "The 'contains_character' filter requires exactly
one character.", which names no value. -/
inductive FilterError where
  | invalidValue (key : PyStr) (val : FValue)
  | containsRequiresSingleChar
deriving DecidableEq, Repr

/-- The key/value pair named by a query error, if any. -/
def errorKeyVal : FilterError → Option (PyStr × FValue)
  | .invalidValue k v => some (k, v)
  | .containsRequiresSingleChar => none

/-- The `if val := query.get(key):` pattern: a present-but-falsy value behaves
exactly like an absent key. -/
def getTruthy : Option FValue → Option FValue
  | some v => if truthy v then some v else none
  | none => none

/-- The `is_palindrome` filter step of `Database.query_string`:
`str(val).lower()` must be one of true/false/1/0, and the where-clause
compares the stored flag with the coerced boolean. -/
def palClause : Option FValue → Except FilterError (StringRecord → Bool)
  | none => .ok (fun _ => true)
  | some v =>
    let lv := pyLower (pyStrOf v)
    if lv == "true".toList || lv == "false".toList || lv == "1".toList || lv == "0".toList then
      .ok (fun r => r.is_palindrome == (lv == "true".toList || lv == "1".toList))
    else .error (.invalidValue ("is_palindrome".toList) v)

/-- The `max_length` filter step: `String.length <= int(val)`. -/
def maxClause : Option FValue → Except FilterError (StringRecord → Bool)
  | none => .ok (fun _ => true)
  | some v =>
    match pyInt v with
    | some n => .ok (fun r => decide ((r.length : Int) ≤ n))
    | none => .error (.invalidValue ("max_length".toList) v)

/-- The `min_length` filter step: `String.length >= int(val)`. -/
def minClause : Option FValue → Except FilterError (StringRecord → Bool)
  | none => .ok (fun _ => true)
  | some v =>
    match pyInt v with
    | some n => .ok (fun r => decide (n ≤ (r.length : Int)))
    | none => .error (.invalidValue ("min_length".toList) v)

/-- The `word_count` filter step: `String.word_count == int(val)`. -/
def wcClause : Option FValue → Except FilterError (StringRecord → Bool)
  | none => .ok (fun _ => true)
  | some v =>
    match pyInt v with
    | some n => .ok (fun r => decide ((r.word_count : Int) = n))
    | none => .error (.invalidValue ("word_count".toList) v)

/-- The `contains_character` filter step: the value must be a string of
exactly one character, and the where-clause tests
`character_frequency_map[val].as_integer() >= 1` with the character exactly
as given (a missing key reads as count 0 / no match). -/
def containsClause : Option FValue → Except FilterError (StringRecord → Bool)
  | none => .ok (fun _ => true)
  | some v =>
    match v with
    | .vs [c] => .ok (fun r => decide (1 ≤ lookupCount r.character_frequency_map c))
    | _ => .error .containsRequiresSingleChar

/-- `Database.query_string` (src/src/stage1/db.py lines 79-134): the five
filter steps run in source order (is_palindrome, max_length, min_length,
word_count, contains_character), each guarded by truthiness of the present
value, raising at the first coercion failure; the surviving records are those
satisfying the conjunction of all compiled where-clauses, in stored order. -/
def query_string (q : QueryMap) (store : Store) : Except FilterError Store :=
  match palClause (getTruthy q.is_palindrome) with
  | .error e => .error e
  | .ok p1 =>
    match maxClause (getTruthy q.max_length) with
    | .error e => .error e
    | .ok p2 =>
      match minClause (getTruthy q.min_length) with
      | .error e => .error e
      | .ok p3 =>
        match wcClause (getTruthy q.word_count) with
        | .error e => .error e
        | .ok p4 =>
          match containsClause (getTruthy q.contains_character) with
          | .error e => .error e
          | .ok p5 =>
            .ok (store.filter (fun r => p1 r && p2 r && p3 r && p4 r && p5 r))

/-- The first `ValueError` that `Database.query_string` would raise, in the
source's evaluation order, independent of any store. -/
def firstFailure (q : QueryMap) : Option FilterError :=
  match palClause (getTruthy q.is_palindrome) with
  | .error e => some e
  | .ok _ =>
    match maxClause (getTruthy q.max_length) with
    | .error e => some e
    | .ok _ =>
      match minClause (getTruthy q.min_length) with
      | .error e => some e
      | .ok _ =>
        match wcClause (getTruthy q.word_count) with
        | .error e => some e
        | .ok _ =>
          match containsClause (getTruthy q.contains_character) with
          | .error e => some e
          | .ok _ => none

/-- The five filter keys the `query_strings` endpoint accepts
(src/src/stage1/main.py lines 115-121). -/
def recognizedKeys : List PyStr :=
  ["is_palindrome".toList, "min_length".toList, "max_length".toList,
   "word_count".toList, "contains_character".toList]

/-- Building the query dictionary from the request's query parameters
(`dict(req.query_params.items())`): later duplicates overwrite, keys other
than the five recognised ones never reach a `query.get` call. -/
def setParam (q : QueryMap) (k : PyStr) (v : FValue) : QueryMap :=
  if k == "is_palindrome".toList then { q with is_palindrome := some v }
  else if k == "max_length".toList then { q with max_length := some v }
  else if k == "min_length".toList then { q with min_length := some v }
  else if k == "word_count".toList then { q with word_count := some v }
  else if k == "contains_character".toList then { q with contains_character := some v }
  else q

/-- The query dictionary built from raw request parameters (all values are
strings on the wire). -/
def toQueryMap (params : List (PyStr × PyStr)) : QueryMap :=
  params.foldl (fun q kv => setParam q kv.1 (.vs kv.2)) {}

/-- How the `query_strings` endpoint rejects a request: an unrecognised key
fails the `super_set.issuperset(query_set)` check (raising `AssertionError`),
and a `ValueError` from `Database.query_string` propagates; both are caught
and mapped to HTTP 400.  The constructors record which rejection occurred. -/
inductive EndpointError where
  | unrecognizedKey
  | filterError (e : FilterError)
deriving DecidableEq, Repr

/-- The `query_strings` endpoint (src/src/stage1/main.py lines 90-142): the
key set must be a subset of the five recognised keys, checked before any
query executes; only then is `Database.query_string` run. -/
def query_strings (params : List (PyStr × PyStr)) (store : Store) :
    Except EndpointError Store :=
  if params.all (fun kv => recognizedKeys.contains kv.1) then
    match query_string (toQueryMap params) store with
    | .ok rs => .ok rs
    | .error e => .error (.filterError e)
  else .error .unrecognizedKey

namespace RuleNL

/-
The rule-based translator `NaturalLangFilter` of src/main.py (lines 37-174).
spaCy is an external library; it is modelled at the granularity the matcher
uses: tokenization splits on whitespace (exact for the punctuation-free
sentences this development evaluates), `LOWER` lowercases a token,
`like_num` holds for digit tokens (spaCy also flags number words such as
"ten", but `_extract_number` skips any token `int()` cannot parse, so the
two models agree on the extracted number), and lemmatisation is a finite
table that is the identity elsewhere.
-/

/-- The tokens of a sentence (spaCy tokenization, modelled as whitespace
splitting). -/
def tokenize (text : PyStr) : List PyStr := pySplitWS text

/-- The optional hedge words of `pattern_palindrome`. -/
def palHedge : List PyStr :=
  ["check".toList, "is".toList, "test".toList, "determine".toList]

/-- The counting cue words of `pattern_word_count`. -/
def wcCue : List PyStr :=
  ["count".toList, "number".toList, "how".toList, "many".toList]

/-- The word nouns of `pattern_word_count`. -/
def wcNoun : List PyStr := ["words".toList, "word".toList]

/-- The size cue words of `pattern_max_length`. -/
def maxCue : List PyStr :=
  ["longest".toList, "max".toList, "maximum".toList, "longer".toList]

/-- The size nouns of `pattern_max_length` / `pattern_min_length`. -/
def sizeNoun : List PyStr :=
  ["word".toList, "length".toList, "size".toList, "characters".toList]

/-- The size cue words of `pattern_min_length`. -/
def minCue : List PyStr :=
  ["shortest".toList, "min".toList, "minimum".toList, "shorter".toList]

/-- The containment cue words of `pattern_contains_char` (the following
char/character/letter/symbol token is optional and does not affect whether
the cue matches). -/
def containCue : List PyStr :=
  ["contain".toList, "contains".toList, "have".toList, "includes".toList,
   "including".toList]

/-- The lowercased token at position `i`, if any. -/
def tokLower (toks : List PyStr) (i : Nat) : Option PyStr :=
  (toks.get? i).map pyLower

/-- Membership of an optional token in a word set. -/
def optMem (o : Option PyStr) (ws : List PyStr) : Bool :=
  match o with
  | some t => ws.contains t
  | none => false

/-- A two-token spaCy `Matcher` pattern: some token in word set `a`
immediately followed by a token in word set `b`. -/
def pairMatch (toks : List PyStr) (a b : List PyStr) : Bool :=
  (List.range toks.length).any
    (fun i => optMem (tokLower toks i) a && optMem (tokLower toks (i + 1)) b)

/-- `pattern_palindrome`: an optional hedge word followed by "palindrome"
(with `OP: "?"` the bare token "palindrome" already matches). -/
def palMatch (toks : List PyStr) : Bool :=
  (List.range toks.length).any
    (fun i =>
      tokLower toks i == some ("palindrome".toList) ||
      (optMem (tokLower toks i) palHedge &&
        tokLower toks (i + 1) == some ("palindrome".toList)))

/-- `pattern_contains_char`: a containment cue anywhere (its trailing noun is
optional). -/
def containsMatch (toks : List PyStr) : Bool :=
  toks.any (fun t => containCue.contains (pyLower t))

/-- spaCy `token.like_num`, restricted to digit tokens (see the module
comment). -/
def likeNum (t : PyStr) : Bool := !t.isEmpty && t.all Char.isDigit

/-- `NaturalLangFilter._extract_number`: the first token that is numeric and
that `int()` accepts. -/
def extractNumber (toks : List PyStr) : Option Int :=
  toks.findSome? (fun t => if likeNum t then parseInt t else none)

/-- `NaturalLangFilter._extract_character`: the first single-letter alphabetic
token. -/
def extractChar (toks : List PyStr) : Option PyStr :=
  toks.find? (fun t => t.length == 1 && t.all Char.isAlpha)

/-- spaCy lemmatisation, as a finite table over the vocabulary this
development evaluates; identity elsewhere. -/
def spacyLemma (t : PyStr) : PyStr :=
  if t == "is".toList || t == "am".toList || t == "are".toList ||
      t == "was".toList || t == "were".toList then "be".toList
  else if t == "longer".toList then "long".toList
  else if t == "shorter".toList then "short".toList
  else if t == "strings".toList then "string".toList
  else if t == "words".toList then "word".toList
  else if t == "characters".toList then "character".toList
  else if t == "equals".toList then "equal".toList
  else t

/-- The `SYMBOLS` comparison-lemma table of `NaturalLangFilter.__init__`. -/
def symbolsLookup (w : PyStr) : Option PyStr :=
  if w == "greater".toList || w == "more".toList || w == "above".toList ||
      w == "higher".toList then some (">".toList)
  else if w == "less".toList || w == "smaller".toList || w == "below".toList ||
      w == "under".toList then some ("<".toList)
  else if w == "equal".toList || w == "equals".toList ||
      w == "same".toList then some ("=".toList)
  else if w == "not".toList || w == "different".toList ||
      w == "unequal".toList then some ("≠".toList)
  else none

/-- `NaturalLangFilter.parse_filter_command`: the comparison symbol of the
first token of `text.lower()` whose lemma is in `SYMBOLS`. -/
def parse_filter_command (text : PyStr) : Option PyStr :=
  (tokenize (pyLower text)).findSome? (fun t => symbolsLookup (spacyLemma t))

/-- The dictionary produced by `NaturalLangFilter.extract_context`
(src/main.py lines 107-143); every key absent when its pattern finds no
match. -/
structure RuleFilter where
  is_palindrome : Option FValue := none
  word_count : Option FValue := none
  max_length : Option FValue := none
  min_length : Option FValue := none
  contains_character : Option FValue := none
  filter_symbol : Option FValue := none
deriving DecidableEq, Repr

/-- `NaturalLangFilter.extract_context` (src/main.py lines 107-143).  The
source iterates over all matcher hits and assigns
`extracted_data[key] = value(doc)`; since the assigned value depends only on
the document (never on the hit position), repeated hits of one label
re-assign the same value, so the final dictionary holds, for each label with
at least one hit, that label's key bound to its document-level value —
which is what this definition computes directly.  `word_count` gets
`_extract_number(doc) or True` (so `True` when no number is found, or when
the number is `0`); `max_length` / `min_length` get `_extract_number(doc)`
even when that is `None`; `contains_character` is only set when a
single-letter token exists, lower-cased. -/
def extract_context (text : PyStr) : RuleFilter :=
  let toks := tokenize text
  { is_palindrome := if palMatch toks then some (.vb true) else none
    word_count :=
      if pairMatch toks wcCue wcNoun then
        some
          (match extractNumber toks with
           | some n => if n == 0 then .vb true else .vi n
           | none => .vb true)
      else none
    max_length :=
      if pairMatch toks maxCue sizeNoun then
        some
          (match extractNumber toks with
           | some n => .vi n
           | none => .vnone)
      else none
    min_length :=
      if pairMatch toks minCue sizeNoun then
        some
          (match extractNumber toks with
           | some n => .vi n
           | none => .vnone)
      else none
    contains_character :=
      if containsMatch toks then
        match extractChar toks with
        | some c => some (.vs (pyLower c))
        | none => none
      else none
    filter_symbol := (parse_filter_command text).map (fun s => .vs s) }

end RuleNL

namespace GeminiNL

/-
The model-based translator adapter `NaturalLangFilter` of
src/src/stage1/utils.py (lines 12-118).  The external text-generation call
(`query_json`) is an opaque capability `(prompt) -> raw text`; it is taken
as an already-evaluated `Except` argument so that both the network-failure
and the response-parsing paths are visible.
-/

/-- A value in the parsed filter dictionary (`json.loads` /
`ast.literal_eval` restricted to the flat null/bool/int/string dictionaries
the extraction prompt asks for). -/
inductive JValue where
  | jnull
  | jb (b : Bool)
  | ji (n : Int)
  | js (s : PyStr)
deriving DecidableEq, Repr

/-- The parsed filter dictionary. -/
abbrev FilterDict := List (PyStr × JValue)

/-- Split `s` at the first occurrence of `pat`: `(before, after)` with the
occurrence itself removed. -/
def splitFirst (pat : PyStr) : PyStr → Option (PyStr × PyStr)
  | [] => if pat.isEmpty then some ([], []) else none
  | c :: rest =>
    if pat.isPrefixOf (c :: rest) then some ([], (c :: rest).drop pat.length)
    else (splitFirst pat rest).map (fun p => (c :: p.1, p.2))

/-- Python `str.strip()`. -/
def pyStrip (s : PyStr) : PyStr :=
  ((s.dropWhile isPyWS).reverse.dropWhile isPyWS).reverse

/-- One `re.sub(r"<tag>\s*(.*?)\s*```", r"\1", text, flags=DOTALL)` pass:
every block opened by `tag` and closed by the next "```" is replaced by its
whitespace-trimmed interior; an unclosed opener is left alone.  `fuel`
bounds the number of replacements (the input length always suffices). -/
def replaceFence (tag : PyStr) (fuel : Nat) (s : PyStr) : PyStr :=
  match fuel with
  | 0 => s
  | fuel + 1 =>
    match splitFirst tag s with
    | none => s
    | some (before, rest) =>
      match splitFirst ("```".toList) rest with
      | none => s
      | some (inner, after) =>
        before ++ pyStrip inner ++ replaceFence tag fuel after

/-- Python `str.replace(pat, rep)`: every non-overlapping occurrence,
left to right. -/
def replaceAll (pat rep : PyStr) (fuel : Nat) (s : PyStr) : PyStr :=
  match fuel with
  | 0 => s
  | fuel + 1 =>
    match splitFirst pat s with
    | none => s
    | some (before, after) => before ++ rep ++ replaceAll pat rep fuel after

/-- The `cleaned.startswith('"') and cleaned.endswith('"')` unquoting step. -/
def stripOuterQuotes (s : PyStr) : PyStr :=
  if s.head? == some '"' && s.getLast? == some '"' then (s.drop 1).dropLast
  else s

/-- The cleaning pipeline of `parse_gemini_json` (src/src/stage1/utils.py
lines 43-51): strip "```json" fences, strip remaining "```" fences, undo
escaped quotes, drop literal backslash-n pairs, strip whitespace, and remove
one surrounding pair of double quotes. -/
def cleanResponse (t : PyStr) : PyStr :=
  let a := replaceFence ("```json".toList) t.length t
  let b := replaceFence ("```".toList) a.length a
  let c := replaceAll ['\\', '"'] ['"'] b.length b
  let d := replaceAll ['\\', 'n'] [] c.length c
  stripOuterQuotes (pyStrip d)

/-- Characters up to (and consuming) the closing quote. -/
def strBody (quote : Char) : PyStr → Option (PyStr × PyStr)
  | [] => none
  | c :: rest =>
    if c == quote then some ([], rest)
    else (strBody quote rest).map (fun p => (c :: p.1, p.2))

/-- A digit run at the front of `s`, with the rest. -/
def parseNumPrefix (s : PyStr) : Option (Nat × PyStr) :=
  let ds := s.takeWhile Char.isDigit
  if ds.isEmpty then none
  else (parseDigits ds).map (fun n => (n, s.drop ds.length))

/-- One scalar value.  With `permissive = false` this is strict JSON
(`json.loads`): true/false/null keywords and double-quoted strings only.
With `permissive = true` it is a Python literal (`ast.literal_eval`):
True/False/None keywords and single- or double-quoted strings. -/
def parseScalar (permissive : Bool) (s : PyStr) : Option (JValue × PyStr) :=
  if !permissive && ("true".toList).isPrefixOf s then some (.jb true, s.drop 4)
  else if !permissive && ("false".toList).isPrefixOf s then some (.jb false, s.drop 5)
  else if !permissive && ("null".toList).isPrefixOf s then some (.jnull, s.drop 4)
  else if permissive && ("True".toList).isPrefixOf s then some (.jb true, s.drop 4)
  else if permissive && ("False".toList).isPrefixOf s then some (.jb false, s.drop 5)
  else if permissive && ("None".toList).isPrefixOf s then some (.jnull, s.drop 4)
  else
    match s with
    | '"' :: rest => (strBody '"' rest).map (fun p => (.js p.1, p.2))
    | '-' :: rest => (parseNumPrefix rest).map (fun p => (.ji (-(p.1 : Int)), p.2))
    | c :: rest =>
      if permissive && c == Char.ofNat 39 then
        (strBody (Char.ofNat 39) rest).map (fun p => (.js p.1, p.2))
      else (parseNumPrefix (c :: rest)).map (fun p => (.ji (p.1 : Int), p.2))
    | [] => none

/-- One `key: value` pair (keys double-quoted; single quotes additionally
allowed in permissive mode). -/
def parsePair (permissive : Bool) (s : PyStr) : Option ((PyStr × JValue) × PyStr) :=
  let s1 := s.dropWhile isPyWS
  let keyParse : Option (PyStr × PyStr) :=
    match s1 with
    | '"' :: rest => strBody '"' rest
    | c :: rest =>
      if permissive && c == Char.ofNat 39 then strBody (Char.ofNat 39) rest
      else none
    | [] => none
  match keyParse with
  | none => none
  | some (key, rest1) =>
    match rest1.dropWhile isPyWS with
    | ':' :: rest2 =>
      (parseScalar permissive (rest2.dropWhile isPyWS)).map
        (fun p => ((key, p.1), p.2))
    | _ => none

/-- The comma-separated pairs of a dictionary body, up to the closing
brace. -/
def parseItems (permissive : Bool) : Nat → PyStr → Option (FilterDict × PyStr)
  | 0, _ => none
  | fuel + 1, s =>
    match parsePair permissive s with
    | none => none
    | some (kv, rest) =>
      match rest.dropWhile isPyWS with
      | [] => none
      | c :: rest2 =>
        if c == ',' then
          (parseItems permissive fuel rest2).map (fun p => (kv :: p.1, p.2))
        else if c == Char.ofNat 125 then some ([kv], rest2)
        else none

/-- A full dictionary with nothing but whitespace around it: the acceptable
shape for both `json.loads` and `ast.literal_eval` on the adapter's target
format (non-dictionary documents make the adapter fail and are not
modelled as successes). -/
def parseDict (permissive : Bool) (s : PyStr) : Option FilterDict :=
  match s.dropWhile isPyWS with
  | [] => none
  | c :: rest =>
    if c == Char.ofNat 123 then
      match rest.dropWhile isPyWS with
      | c2 :: rest2 =>
        if c2 == Char.ofNat 125 then
          if (rest2.dropWhile isPyWS).isEmpty then some [] else none
        else
          match parseItems permissive (s.length + 1) (c2 :: rest2) with
          | some (d, rest3) =>
            if (rest3.dropWhile isPyWS).isEmpty then some d else none
          | none => none
      | [] => none
    else none

/-- `NaturalLangFilter.parse_gemini_json` (src/src/stage1/utils.py lines
35-67): clean the raw response, try strict `json.loads` first, fall back to
`ast.literal_eval`, and return an empty dictionary when both fail (the
surrounding `except` clauses turn every parsing exception into `{}`). -/
def parse_gemini_json (t : PyStr) : FilterDict :=
  let cleaned := cleanResponse t
  match parseDict false cleaned with
  | some d => d
  | none =>
    match parseDict true cleaned with
    | some d => d
    | none => []

/-- `NaturalLangFilter.extract_context` (src/src/stage1/utils.py lines
69-118): delegate to the external model and parse its output; the
`except Exception: return ` + `parse_gemini_json`'s own handlers mean any
failure (network error included) yields an empty filter dictionary rather
than an exception. -/
def extract_context (oracle : Except PyStr PyStr) : FilterDict :=
  match oracle with
  | .error _ => []
  | .ok t => parse_gemini_json t

end GeminiNL

/-
Helper lemmas.
-/

theorem length_splitWSGo (cs : List Char) (acc : List Char) :
    (splitWSGo cs acc).length =
      countStarts (!acc.isEmpty) cs + (if acc.isEmpty then 0 else 1) := by
  induction cs generalizing acc with
  | nil =>
    by_cases h : acc.isEmpty <;> simp [splitWSGo, countStarts, h]
  | cons c cs ih =>
    by_cases hw : isPyWS c
    · by_cases h : acc.isEmpty
      · simp [splitWSGo, countStarts, hw, h, ih]
      · simp [splitWSGo, countStarts, hw, h, ih]
    · by_cases h : acc.isEmpty
      · simp [splitWSGo, countStarts, hw, h, ih]
        omega
      · simp [splitWSGo, countStarts, hw, h, ih]

theorem length_pySplitWS (s : PyStr) : (pySplitWS s).length = tokenStarts s := by
  simpa [pySplitWS, tokenStarts] using length_splitWSGo s []

theorem mem_dedupFirstAux (l : List Char) (seen : List Char) (x : Char) :
    x ∈ dedupFirstAux l seen ↔ x ∈ l ∧ x ∉ seen := by
  induction l generalizing seen with
  | nil => simp [dedupFirstAux]
  | cons c cs ih =>
    by_cases hc : c ∈ seen
    · simp only [dedupFirstAux, if_pos hc, ih, List.mem_cons]
      constructor
      · rintro ⟨hx, hs⟩; exact ⟨Or.inr hx, hs⟩
      · rintro ⟨hx | hx, hs⟩
        · exact absurd (hx ▸ hc) hs
        · exact ⟨hx, hs⟩
    · simp only [dedupFirstAux, if_neg hc, List.mem_cons, ih, List.mem_append,
        List.mem_singleton]
      by_cases hxc : x = c
      · subst hxc; tauto
      · tauto

theorem nodup_dedupFirstAux (l : List Char) (seen : List Char) :
    (dedupFirstAux l seen).Nodup := by
  induction l generalizing seen with
  | nil => simp [dedupFirstAux]
  | cons c cs ih =>
    by_cases hc : c ∈ seen
    · simpa [dedupFirstAux, if_pos hc] using ih seen
    · rw [dedupFirstAux, if_neg hc, List.nodup_cons]
      refine ⟨fun h => ?_, ih _⟩
      have := (mem_dedupFirstAux cs (seen ++ [c]) c).1 h
      exact this.2 (List.mem_append.2 (Or.inr (List.mem_singleton.2 rfl)))

theorem mem_dedupFirst (s : PyStr) (x : Char) : x ∈ dedupFirst s ↔ x ∈ s := by
  simp [dedupFirst, mem_dedupFirstAux]

theorem length_dedupFirst (s : PyStr) :
    (dedupFirst s).length = s.toFinset.card := by
  have h1 : (dedupFirst s).Nodup := nodup_dedupFirstAux s []
  have h2 : (dedupFirst s).toFinset = s.toFinset := by
    ext x
    simp [List.mem_toFinset, mem_dedupFirst]
  calc (dedupFirst s).length = (dedupFirst s).dedup.length := by
        rw [List.dedup_eq_self.2 h1]
    _ = (dedupFirst s).toFinset.card := (List.card_toFinset _).symm
    _ = s.toFinset.card := by rw [h2]

theorem find?_map_pair (l : List Char) (f : Char → Nat) (c : Char) :
    (l.map (fun x => (x, f x))).find? (fun p => p.1 == c) =
      (l.find? (fun x => x == c)).map (fun x => (x, f x)) := by
  induction l with
  | nil => rfl
  | cons a l ih =>
    by_cases h : a = c <;> simp [List.find?_cons, h, ih]

theorem find?_eq_of_beq (l : List Char) (c : Char) :
    l.find? (fun x => x == c) = if c ∈ l then some c else none := by
  induction l with
  | nil => rfl
  | cons a l ih =>
    by_cases h : a = c
    · subst h; simp [List.find?_cons]
    · simp [List.find?_cons, h, ih, List.mem_cons, Ne.symm h]

theorem lookupCount_counterList (s : PyStr) (c : Char) :
    lookupCount (counterList s) c = s.count c := by
  rw [lookupCount, counterList, find?_map_pair, find?_eq_of_beq]
  by_cases h : c ∈ s
  · rw [if_pos ((mem_dedupFirst s c).2 h)]
    rfl
  · rw [if_neg (fun hm => h ((mem_dedupFirst s c).1 hm))]
    exact (List.count_eq_zero.2 h).symm

theorem hasKey_counterList (s : PyStr) (c : Char) :
    hasKey (counterList s) c = true ↔ c ∈ s := by
  simp [hasKey, counterList, List.any_eq_true, mem_dedupFirst]

/-
Claim theorems.
-/

/-- C1: for every string `s`, the derived record has `length` equal to the
character count of `s`; `is_palindrome` true iff `s` equals its
character-reversed form; `word_count` equal to the number of
whitespace-delimited tokens of `s` (independently counted as the number of
maximal non-whitespace runs); `unique_characters` equal to the number of
distinct characters of `s`; a frequency map whose keys are exactly the
distinct characters of `s`, each mapped to its occurrence count; and the
empty string derives length 0, word count 0, palindrome true, 0 unique
characters and an empty frequency map. -/
theorem derive_properties (s : PyStr) :
    (calculate_properties s).length = s.length ∧
    ((calculate_properties s).is_palindrome = true ↔ s = s.reverse) ∧
    (calculate_properties s).word_count = tokenStarts s ∧
    (calculate_properties s).unique_characters = s.toFinset.card ∧
    (∀ c : Char,
      hasKey (calculate_properties s).character_frequency_map c = true ↔ c ∈ s) ∧
    (∀ c : Char,
      lookupCount (calculate_properties s).character_frequency_map c = s.count c) ∧
    calculate_properties [] =
      { name := [], length := 0, is_palindrome := true, unique_characters := 0,
        word_count := 0, character_frequency_map := [] } := by
  refine ⟨rfl, ?_, ?_, ?_, ?_, ?_, rfl⟩
  · simp [calculate_properties]
  · simpa [calculate_properties] using length_pySplitWS s
  · simpa [calculate_properties, counterList] using length_dedupFirst s
  · exact fun c => hasKey_counterList s c
  · exact fun c => lookupCount_counterList s c

/-- C3: inserting a value that is absent creates a record; inserting the same
value again signals the conflict (`none`, mapped to `AlreadyExists`/409)
and leaves the store unchanged, and the record created by the first insert
is still retrievable by `get_string` and unchanged. -/
theorem insert_insert_conflict (store : Store) (v : PyStr)
    (h : get_string store v = none) :
    add_string store v =
      (some (calculate_properties v), store ++ [calculate_properties v]) ∧
    add_string (store ++ [calculate_properties v]) v =
      (none, store ++ [calculate_properties v]) ∧
    get_string (store ++ [calculate_properties v]) v =
      some (calculate_properties v) := by
  have hget : get_string (store ++ [calculate_properties v]) v =
      some (calculate_properties v) := by
    rw [get_string, List.find?_append]
    rw [get_string] at h
    simp [h, calculate_properties]
  refine ⟨?_, ?_, hget⟩
  · rw [add_string, h]
  · rw [add_string, hget]

/-- C3 witness: the empty store and the value "a". -/
theorem insert_insert_conflict_witness :
    get_string [] ("a".toList) = none ∧
    (add_string [] ("a".toList) =
        (some (calculate_properties ("a".toList)),
          [] ++ [calculate_properties ("a".toList)]) ∧
      add_string ([] ++ [calculate_properties ("a".toList)]) ("a".toList) =
        (none, [] ++ [calculate_properties ("a".toList)]) ∧
      get_string ([] ++ [calculate_properties ("a".toList)]) ("a".toList) =
        some (calculate_properties ("a".toList))) :=
  ⟨rfl, insert_insert_conflict [] ("a".toList) rfl⟩

/-- C4: a structured query whose parameters contain any key outside the five
recognised filter keys is rejected as a whole by the superset check, before
any filtering runs: the endpoint returns the unrecognised-key error and
never any (unfiltered or partially filtered) result set. -/
theorem unknown_key_rejected (params : List (PyStr × PyStr)) (store : Store)
    (k v : PyStr) (hmem : (k, v) ∈ params)
    (hk : recognizedKeys.contains k = false) :
    query_strings params store = .error .unrecognizedKey := by
  rw [query_strings, if_neg]
  intro hall
  have := List.all_eq_true.1 hall (k, v) hmem
  rw [hk] at this
  exact Bool.false_ne_true this

/-- C4 witness: the filter map with the single unrecognised key "foo". -/
theorem unknown_key_rejected_witness :
    (("foo".toList, "bar".toList) ∈ [(("foo".toList, "bar".toList))] ∧
      recognizedKeys.contains ("foo".toList) = false) ∧
    query_strings [(("foo".toList, "bar".toList))]
        [calculate_properties ("level".toList)] = .error .unrecognizedKey :=
  ⟨⟨by decide, by decide⟩,
    unknown_key_rejected [(("foo".toList, "bar".toList))]
      [calculate_properties ("level".toList)] ("foo".toList) ("bar".toList)
      (by decide) (by decide)⟩

/-
C2 machinery: a StructuredFilter in the sense of the specification is a map
of request-parameter strings whose present values satisfy the coercion rules
of spec §3 (boolean literals true/false/1/0 case-insensitively, base-10
integers, exactly one character).  The per-key predicates below spell out
the specification's reading of each filter key.
-/

/-- A present boolean filter parameter is a request string in the accepted
boolean-literal set (spec §3). -/
def okBoolParam : Option FValue → Bool
  | none => true
  | some (.vs s) =>
    pyLower s == "true".toList || pyLower s == "false".toList ||
      pyLower s == "1".toList || pyLower s == "0".toList
  | some _ => false

/-- A present integer filter parameter is a request string that parses as a
base-10 integer (spec §3). -/
def okIntParam : Option FValue → Bool
  | none => true
  | some (.vs s) => (parseInt s).isSome
  | some _ => false

/-- A present `contains_character` parameter is a request string of exactly
one character (spec §3). -/
def okCharParam : Option FValue → Bool
  | none => true
  | some (.vs s) => s.length == 1
  | some _ => false

/-- A well-formed StructuredFilter: every present value is a validly
coercible request string. -/
def wellFormedFilter (q : QueryMap) : Bool :=
  okBoolParam q.is_palindrome && okIntParam q.max_length &&
    okIntParam q.min_length && okIntParam q.word_count &&
    okCharParam q.contains_character

/-- Specification predicate for `is_palindrome`: the stored flag equals the
coerced boolean. -/
def specPalPred : Option FValue → StringRecord → Bool
  | none => fun _ => true
  | some v => fun r =>
    r.is_palindrome ==
      (pyLower (pyStrOf v) == "true".toList || pyLower (pyStrOf v) == "1".toList)

/-- Specification predicate for `max_length`: inclusive upper bound on
`length`. -/
def specMaxPred : Option FValue → StringRecord → Bool
  | none => fun _ => true
  | some v => fun r =>
    match pyInt v with
    | some n => decide ((r.length : Int) ≤ n)
    | none => false

/-- Specification predicate for `min_length`: inclusive lower bound on
`length`. -/
def specMinPred : Option FValue → StringRecord → Bool
  | none => fun _ => true
  | some v => fun r =>
    match pyInt v with
    | some n => decide (n ≤ (r.length : Int))
    | none => false

/-- Specification predicate for `word_count`: exact match. -/
def specWcPred : Option FValue → StringRecord → Bool
  | none => fun _ => true
  | some v => fun r =>
    match pyInt v with
    | some n => decide ((r.word_count : Int) = n)
    | none => false

/-- Specification predicate for `contains_character`: the single character is
a key of the record's frequency map with at least one occurrence. -/
def specContainsPred : Option FValue → StringRecord → Bool
  | none => fun _ => true
  | some v =>
    match v with
    | .vs [c] => fun r => decide (1 ≤ lookupCount r.character_frequency_map c)
    | _ => fun _ => false

/-- The conjunction of the per-key specification predicates over all provided
keys. -/
def specFilterPred (q : QueryMap) : StringRecord → Bool := fun r =>
  specPalPred q.is_palindrome r && specMaxPred q.max_length r &&
    specMinPred q.min_length r && specWcPred q.word_count r &&
    specContainsPred q.contains_character r

theorem palClause_wf (o : Option FValue) (h : okBoolParam o = true) :
    palClause (getTruthy o) = .ok (specPalPred o) := by
  match o with
  | none => rfl
  | some .vnone | some (.vb _) | some (.vi _) => simp [okBoolParam] at h
  | some (.vs s) =>
    match s with
    | [] => exact absurd h (by decide)
    | a :: as =>
      rw [okBoolParam] at h
      have ht : getTruthy (some (.vs (a :: as))) = some (.vs (a :: as)) := rfl
      rw [ht, palClause]
      simp only [pyStrOf] at h ⊢
      rw [if_pos h]
      rfl

theorem parseInt_nil : parseInt [] = none := rfl

theorem intClause_wf
    (clause : Option FValue → Except FilterError (StringRecord → Bool))
    (specPred : Option FValue → StringRecord → Bool)
    (key : PyStr) (rel : Int → StringRecord → Bool)
    (hclause : ∀ v, clause (some v) =
      match pyInt v with
      | some n => .ok (fun r => rel n r)
      | none => .error (.invalidValue key v))
    (hclausenone : clause none = .ok (fun _ => true))
    (hspec : ∀ v, specPred (some v) = fun r =>
      match pyInt v with
      | some n => rel n r
      | none => false)
    (hspecnone : specPred none = fun _ => true)
    (o : Option FValue) (h : okIntParam o = true) :
    clause (getTruthy o) = .ok (specPred o) := by
  match o with
  | none => rw [getTruthy, hclausenone, hspecnone]
  | some .vnone | some (.vb _) | some (.vi _) => simp [okIntParam] at h
  | some (.vs s) =>
    rw [okIntParam] at h
    obtain ⟨n, hn⟩ := Option.isSome_iff_exists.1 h
    match s with
    | [] => rw [parseInt_nil] at hn; cases hn
    | a :: as =>
      have ht : getTruthy (some (.vs (a :: as))) = some (.vs (a :: as)) := rfl
      rw [ht, hclause, hspec]
      simp only [pyInt] at *
      rw [hn]

theorem maxClause_wf (o : Option FValue) (h : okIntParam o = true) :
    maxClause (getTruthy o) = .ok (specMaxPred o) :=
  intClause_wf maxClause specMaxPred ("max_length".toList)
    (fun n r => decide ((r.length : Int) ≤ n))
    (fun _ => rfl) rfl (fun _ => rfl) rfl o h

theorem minClause_wf (o : Option FValue) (h : okIntParam o = true) :
    minClause (getTruthy o) = .ok (specMinPred o) :=
  intClause_wf minClause specMinPred ("min_length".toList)
    (fun n r => decide (n ≤ (r.length : Int)))
    (fun _ => rfl) rfl (fun _ => rfl) rfl o h

theorem wcClause_wf (o : Option FValue) (h : okIntParam o = true) :
    wcClause (getTruthy o) = .ok (specWcPred o) :=
  intClause_wf wcClause specWcPred ("word_count".toList)
    (fun n r => decide ((r.word_count : Int) = n))
    (fun _ => rfl) rfl (fun _ => rfl) rfl o h

theorem containsClause_wf (o : Option FValue) (h : okCharParam o = true) :
    containsClause (getTruthy o) = .ok (specContainsPred o) := by
  match o with
  | none => rfl
  | some .vnone | some (.vb _) | some (.vi _) => simp [okCharParam] at h
  | some (.vs s) =>
    rw [okCharParam] at h
    match s, h with
    | [c], _ => rfl

/-- C2: over every stored collection, a well-formed StructuredFilter (all
present values are validly coercible request strings, spec §3) makes
`Database.query_string` return exactly the stored records satisfying the
conjunction (AND) of all provided keys' predicates, in stored order. -/
theorem query_conjunction (q : QueryMap) (store : Store)
    (h : wellFormedFilter q = true) :
    query_string q store = .ok (store.filter (specFilterPred q)) := by
  rw [wellFormedFilter] at h
  simp only [Bool.and_eq_true] at h
  obtain ⟨⟨⟨⟨h1, h2⟩, h3⟩, h4⟩, h5⟩ := h
  rw [query_string, palClause_wf _ h1, maxClause_wf _ h2, minClause_wf _ h3,
    wcClause_wf _ h4, containsClause_wf _ h5]
  rfl

/-- C2 witness: the filter is_palindrome=true, word_count=1 over the store
containing "level" and "hello world" returns exactly the record for
"level". -/
theorem query_conjunction_witness :
    wellFormedFilter
        { is_palindrome := some (.vs ("true".toList)),
          word_count := some (.vs ("1".toList)) } = true ∧
    query_string
        { is_palindrome := some (.vs ("true".toList)),
          word_count := some (.vs ("1".toList)) }
        [calculate_properties ("level".toList),
          calculate_properties ("hello world".toList)] =
      .ok [calculate_properties ("level".toList)] := by
  refine ⟨by decide, ?_⟩
  rw [query_conjunction _ _ (by decide)]
  rfl

/-- C5 counterexample: the claim says every coercion failure is reported by
an error naming the failing key and the offending literal value; but the
`contains_character` length check raises the fixed message "The
'contains_character' filter requires exactly one character.", which carries
no key/value payload — at the concrete filter `contains_character = "ab"`
the raised error names no offending literal. -/
theorem contains_error_carries_no_value :
    query_string { contains_character := some (.vs ("ab".toList)) } [] =
      .error .containsRequiresSingleChar ∧
    errorKeyVal .containsRequiresSingleChar = none :=
  ⟨rfl, rfl⟩

/-- C5 (amended): evaluation stops at the first coercion failure in the
source's fixed order (is_palindrome, max_length, min_length, word_count,
contains_character) and the whole query is rejected with that step's
`ValueError` — which names the key and the offending literal for the four
coercible keys, while the `contains_character` length check raises a fixed
message naming only the key — and no result set is returned. -/
theorem coercion_failure_first (q : QueryMap) (store : Store) (e : FilterError)
    (h : firstFailure q = some e) :
    query_string q store = .error e := by
  rw [firstFailure] at h
  rw [query_string]
  cases h1 : palClause (getTruthy q.is_palindrome) with
  | error e1 => rw [h1] at h; dsimp only at h; injection h with h; subst h; rfl
  | ok p1 =>
    rw [h1] at h; dsimp only at h
    cases h2 : maxClause (getTruthy q.max_length) with
    | error e2 => rw [h2] at h; dsimp only at h; injection h with h; subst h; rfl
    | ok p2 =>
      rw [h2] at h; dsimp only at h
      cases h3 : minClause (getTruthy q.min_length) with
      | error e3 => rw [h3] at h; dsimp only at h; injection h with h; subst h; rfl
      | ok p3 =>
        rw [h3] at h; dsimp only at h
        cases h4 : wcClause (getTruthy q.word_count) with
        | error e4 => rw [h4] at h; dsimp only at h; injection h with h; subst h; rfl
        | ok p4 =>
          rw [h4] at h; dsimp only at h
          cases h5 : containsClause (getTruthy q.contains_character) with
          | error e5 =>
            rw [h5] at h; dsimp only at h; injection h with h; subst h; rfl
          | ok p5 => rw [h5] at h; dsimp only at h; cases h

/-- C5 witness: the filter min_length="abc" fails coercion and is rejected
with the error naming the key `min_length` and the literal "abc". -/
theorem coercion_failure_first_witness :
    firstFailure { min_length := some (.vs ("abc".toList)) } =
      some (.invalidValue ("min_length".toList) (.vs ("abc".toList))) ∧
    query_string { min_length := some (.vs ("abc".toList)) }
        [calculate_properties ("level".toList)] =
      .error (.invalidValue ("min_length".toList) (.vs ("abc".toList))) :=
  ⟨rfl,
    coercion_failure_first { min_length := some (.vs ("abc".toList)) }
      [calculate_properties ("level".toList)]
      (.invalidValue ("min_length".toList) (.vs ("abc".toList))) rfl⟩

/-- Case-insensitive membership in the keys of a frequency map: the
behaviour the claim ascribes to `contains_character`. -/
def ciMember (c : Char) (m : List (Char × Nat)) : Bool :=
  m.any (fun p => p.1.toLower == c.toLower)

/-- C6 counterexample: the claim says the membership test is
case-insensitive; but over the store containing "A", the filter
`contains_character = "a"` matches nothing, although 'a' is
case-insensitively among the record's frequency-map keys. -/
theorem contains_not_case_insensitive :
    ciMember 'a' (calculate_properties ("A".toList)).character_frequency_map
      = true ∧
    query_string { contains_character := some (.vs ['a']) }
        [calculate_properties ("A".toList)] = .ok [] :=
  ⟨rfl, rfl⟩

/-- C6 (amended): the `contains_character` filter accepts exactly one
character — a multi-character (or non-string) value is rejected with an
error, not treated as a substring test — and matches a record iff that
exact character (case-sensitively) is a key of the record's
`character_frequency` map with at least one occurrence; for a derived
record that key-membership holds iff the character occurs in the record's
value. -/
theorem contains_character_semantics :
    (∀ (store : Store) (c : Char),
      query_string { contains_character := some (.vs [c]) } store =
        .ok (store.filter
          (fun r => decide (1 ≤ lookupCount r.character_frequency_map c)))) ∧
    (∀ (store : Store) (s : PyStr), s.length ≠ 1 → s ≠ [] →
      query_string { contains_character := some (.vs s) } store =
        .error .containsRequiresSingleChar) ∧
    (∀ (v : PyStr) (c : Char),
      1 ≤ lookupCount (calculate_properties v).character_frequency_map c ↔
        c ∈ v) := by
  refine ⟨fun store c => rfl, ?_, ?_⟩
  · intro store s h1 h2
    match s, h1, h2 with
    | [], _, h2 => exact absurd rfl h2
    | [c], h1, _ => exact absurd rfl h1
    | a :: b :: bs, _, _ => rfl
  · intro v c
    rw [show (calculate_properties v).character_frequency_map = counterList v
        from rfl, lookupCount_counterList]
    exact List.count_pos_iff

/-- C6 witness: the two-character value "ab" is rejected rather than treated
as a substring test. -/
theorem contains_character_semantics_witness :
    ("ab".toList).length ≠ 1 ∧
    query_string { contains_character := some (.vs ("ab".toList)) }
        [calculate_properties ("level".toList)] =
      .error .containsRequiresSingleChar :=
  ⟨by decide,
    contains_character_semantics.2.1 [calculate_properties ("level".toList)]
      ("ab".toList) (by decide) (by decide)⟩

/-- C9: any recognised filter key whose present value is Python-falsy
(`False`, `0`, `None`, the empty string) is skipped by the
`if val := query.get(key)` guard and imposes no constraint: for each of the
five keys, a falsy value behaves exactly like an absent key; the empty
filter map returns every stored record; and `is_palindrome = False` in
particular filters nothing. -/
theorem falsy_filter_values_skipped :
    (∀ (q : QueryMap) (store : Store) (v : FValue), truthy v = false →
      query_string { q with is_palindrome := some v } store =
        query_string { q with is_palindrome := none } store) ∧
    (∀ (q : QueryMap) (store : Store) (v : FValue), truthy v = false →
      query_string { q with max_length := some v } store =
        query_string { q with max_length := none } store) ∧
    (∀ (q : QueryMap) (store : Store) (v : FValue), truthy v = false →
      query_string { q with min_length := some v } store =
        query_string { q with min_length := none } store) ∧
    (∀ (q : QueryMap) (store : Store) (v : FValue), truthy v = false →
      query_string { q with word_count := some v } store =
        query_string { q with word_count := none } store) ∧
    (∀ (q : QueryMap) (store : Store) (v : FValue), truthy v = false →
      query_string { q with contains_character := some v } store =
        query_string { q with contains_character := none } store) ∧
    (∀ store : Store, query_string {} store = .ok store) ∧
    (∀ store : Store,
      query_string { is_palindrome := some (.vb false) } store =
        query_string {} store) := by
  have hg : ∀ v : FValue, truthy v = false → getTruthy (some v) = none := by
    intro v h
    simp [getTruthy, h]
  refine ⟨?_, ?_, ?_, ?_, ?_, ?_, ?_⟩
  · intro q store v h
    simp only [query_string, hg v h]
    rfl
  · intro q store v h
    simp only [query_string, hg v h]
    rfl
  · intro q store v h
    simp only [query_string, hg v h]
    rfl
  · intro q store v h
    simp only [query_string, hg v h]
    rfl
  · intro q store v h
    simp only [query_string, hg v h]
    rfl
  · intro store
    simp [query_string, getTruthy, palClause, maxClause, minClause, wcClause,
      containsClause]
  · intro store
    simp only [query_string, hg (.vb false) rfl]
    rfl

/-- C9 witness: the integer value 0 for max_length is falsy and filters
nothing, over the singleton store containing "level". -/
theorem falsy_filter_values_skipped_witness :
    truthy (.vi 0) = false ∧
    query_string { max_length := some (.vi 0) }
        [calculate_properties ("level".toList)] =
      query_string ({} : QueryMap) [calculate_properties ("level".toList)] :=
  ⟨by decide,
    falsy_filter_values_skipped.2.1 {} [calculate_properties ("level".toList)]
      (.vi 0) (by decide)⟩

/-- C10: when the rule-based translator finds a word-count pattern match in a
sentence whose tokens contain no integer literal, it sets `word_count` to
the boolean `True` sentinel (the `or True` fallback); feeding that filter to
the query engine coerces it with `int(True) == 1`, so the query silently
keeps exactly the records with one word.  The sentence "how many words" is
a concrete instance. -/
theorem word_count_true_sentinel :
    (∀ text : PyStr,
      RuleNL.pairMatch (RuleNL.tokenize text) RuleNL.wcCue RuleNL.wcNoun = true →
      RuleNL.extractNumber (RuleNL.tokenize text) = none →
      (RuleNL.extract_context text).word_count = some (.vb true)) ∧
    (∀ store : Store,
      query_string { word_count := some (.vb true) } store =
        .ok (store.filter (fun r => r.word_count == 1))) ∧
    (RuleNL.extract_context ("how many words".toList)).word_count =
      some (.vb true) := by
  refine ⟨?_, ?_, rfl⟩
  · intro text hm hn
    simp only [RuleNL.extract_context]
    rw [if_pos hm, hn]
  · intro store
    have hpt : ∀ r : StringRecord,
        ((decide ((r.word_count : Int) = 1)) && true) = (r.word_count == 1) := by
      intro r
      by_cases h : r.word_count = 1 <;> simp [h]
    calc query_string { word_count := some (.vb true) } store
        = .ok (store.filter
            (fun r => decide ((r.word_count : Int) = 1) && true)) := rfl
      _ = .ok (store.filter (fun r => r.word_count == 1)) := by
          rw [List.filter_congr (fun r _ => hpt r)]

/-- C10 witness: the sentence "count words" matches the word-count pattern,
contains no integer literal, and yields the `True` sentinel. -/
theorem word_count_true_sentinel_witness :
    RuleNL.pairMatch (RuleNL.tokenize ("count words".toList)) RuleNL.wcCue
        RuleNL.wcNoun = true ∧
    RuleNL.extractNumber (RuleNL.tokenize ("count words".toList)) = none ∧
    (RuleNL.extract_context ("count words".toList)).word_count =
      some (.vb true) :=
  ⟨by decide, by decide,
    word_count_true_sentinel.1 ("count words".toList) (by decide) (by decide)⟩

/-- C8: evaluating the rule-based translator at the claim's two sentences.
"is racecar a palindrome" yields is_palindrome = True as claimed; but
"show strings longer than 10 characters" yields the empty filter map — the
MAX_LENGTH pattern requires a size cue immediately followed by a size noun,
and "longer" is followed by "than" — falsifying the claimed (and
docstring-documented) result max_length = 10. -/
theorem rule_translator_examples :
    RuleNL.extract_context ("show strings longer than 10 characters".toList) =
      ({} : RuleNL.RuleFilter) ∧
    RuleNL.extract_context ("is racecar a palindrome".toList) =
      { is_palindrome := some (.vb true) } :=
  ⟨rfl, rfl⟩

/-- C7: the model-based translator adapter never raises: a network-level
failure yields the empty filter map; a response wrapped in a "```json"
fence parses to the matching filter map; a response using Python literals
(`True`) fails strict JSON parsing and is recovered by the permissive
literal parse; and an unparsable response yields the empty filter map. -/
theorem gemini_adapter_robust :
    (∀ msg : PyStr, GeminiNL.extract_context (.error msg) = []) ∧
    GeminiNL.parse_gemini_json
        ("```json\n\x7b\"min_length\": 3\x7d\n```".toList) =
      [(("min_length".toList), GeminiNL.JValue.ji 3)] ∧
    (GeminiNL.parseDict false
        (GeminiNL.cleanResponse ("\x7b\"is_palindrome\": True\x7d".toList)) =
        none ∧
      GeminiNL.parse_gemini_json ("\x7b\"is_palindrome\": True\x7d".toList) =
        [(("is_palindrome".toList), GeminiNL.JValue.jb true)]) ∧
    GeminiNL.parse_gemini_json ("not a dict at all".toList) = [] :=
  ⟨fun _ => rfl, rfl, ⟨rfl, rfl⟩, rfl⟩

end Hng
